import Mathlib

namespace ReadyOrNot

/-- ASCII lowercase for one character, as Python str.lower acts on the
ASCII error strings produced by the store client. -/
def charLower (c : Char) : Char :=
  if 65 ≤ c.toNat && c.toNat ≤ 90 then Char.ofNat (c.toNat + 32) else c

/-- Lowercase of a string, character by character. -/
def strLower (s : String) : String := ⟨s.data.map charLower⟩

/-- Does the list start with the given pattern. -/
def charsStartWith : List Char → List Char → Bool
  | [], _ => true
  | _ :: _, [] => false
  | a :: as, b :: bs => (a == b) && charsStartWith as bs

/-- Does the haystack contain the needle as a contiguous run,
the Python `needle in hay` test on strings. -/
def charsContain (needle : List Char) : List Char → Bool
  | [] => needle.isEmpty
  | c :: t => charsStartWith needle (c :: t) || charsContain needle t

/-- Python `needle in hay` on strings. -/
def strContainsSub (hay needle : String) : Bool :=
  charsContain needle.data hay.data

/-! ## Upload error classification

From `_is_file_too_large_error`, `_is_duplicate_error` and the transient-error
phrase test of `upload_manager.py` (the same functions appear verbatim in
`processor.py`). -/

/-- The size-limit phrases of `_is_file_too_large_error`. -/
def tooLargePhrases : List String :=
  ["file too large", "payload too large", "entity too large",
   "exceeds maximum", "file size limit", "request entity too large", "413"]

/-- `_is_file_too_large_error`: a 409/duplicate error is never size-classified. -/
def isFileTooLargeError (error : String) : Bool :=
  let error_str := strLower error
  if strContainsSub error_str "duplicate" || strContainsSub error_str "409" then
    false
  else
    tooLargePhrases.any (fun phrase => strContainsSub error_str phrase)

/-- `_is_duplicate_error`: the message must carry both the word duplicate and 409. -/
def isDuplicateError (error : String) : Bool :=
  let error_str := strLower error
  strContainsSub error_str "duplicate" && strContainsSub error_str "409"

/-- The connection-class phrases retried with backoff inside `upload_file`. -/
def transientPhrases : List String :=
  ["server disconnected", "connection", "timeout", "network", "broken pipe"]

/-- The transient-failure test of the inner retry in `upload_file`. -/
def isTransientError (error : String) : Bool :=
  let error_str := strLower error
  transientPhrases.any (fun phrase => strContainsSub error_str phrase)

/-! ## Data model: upload results and compression statistics -/

/-- `UploadResult.ErrorType` from `upload_result.py`. -/
inductive ErrorType where
  | SUCCESS
  | FILE_TOO_LARGE
  | DUPLICATE
  | OTHER_ERROR
deriving DecidableEq

/-- `UploadResult` from `upload_result.py`. -/
structure UploadResult where
  success : Bool
  url : String
  error_type : ErrorType
  error_message : String
deriving DecidableEq

def UploadResult.success_result (url : String) : UploadResult :=
  ⟨true, url, ErrorType.SUCCESS, ""⟩

def UploadResult.file_too_large_error (error_message : String) : UploadResult :=
  ⟨false, "", ErrorType.FILE_TOO_LARGE, error_message⟩

def UploadResult.duplicate_error (error_message : String) : UploadResult :=
  ⟨false, "", ErrorType.DUPLICATE, error_message⟩

def UploadResult.other_error (error_message : String) : UploadResult :=
  ⟨false, "", ErrorType.OTHER_ERROR, error_message⟩

/-- The error classification chain of the `except` block of `upload_file`
(duplicate first, then size, then other). -/
def classifyFailureKind (error : String) : ErrorType :=
  if isDuplicateError error then ErrorType.DUPLICATE
  else if isFileTooLargeError error then ErrorType.FILE_TOO_LARGE
  else ErrorType.OTHER_ERROR

/-- `CompressionStats` from `utils/stats.py`; the float `compression_ratio`
and the free-form `settings` dict are not carried, no claim touches them. -/
structure CompressionStats where
  original_size_kb : Nat
  compressed_size_kb : Nat
  method : String
  attempts : Nat
  final_rf : Option Nat
deriving DecidableEq

/-- `CompressionStats.__init__` defaults. -/
def CompressionStats.init : CompressionStats :=
  ⟨0, 0, "", 1, none⟩

/-- `CompressionStats.create_no_compression_stats`. -/
def CompressionStats.create_no_compression_stats (sizeKB : Nat) : CompressionStats :=
  { CompressionStats.init with
    original_size_kb := sizeKB, compressed_size_kb := sizeKB, method := "none" }

/-! ## Remote store upload primitive

`UploadManager.upload_file` of `upload_manager.py` (the same loop appears as
`upload_to_supabase` in `processor.py`): a bounded attempt loop with an
existence short-circuit on retries, an overwrite-delete before the first
attempt, transient retry, and duplicate-as-success on late attempts.
The remote store is an oracle: `putResult n` is the outcome the store gives
the n-th put (`none` = accepted, `some err` = the raised error message). -/

/-- Operations issued to the remote store, in order. -/
inductive StoreOp where
  | listOp
  | removeOp
  | putOp
deriving DecidableEq

/-- Oracle for one `upload_file` call. -/
structure StoreEnv where
  /-- `_check_file_exists` outcome at the given attempt index. -/
  existsAt : Nat → Bool
  /-- whether `_delete_existing_file` sees the object in its list. -/
  existsForDelete : Bool
  /-- `none` = the put succeeds, `some err` = it raises `err`. -/
  putResult : Nat → Option String
  /-- `get_public_url` for the remote path. -/
  publicUrl : String

/-- One pass of the `for attempt in range(max_retries)` loop of `upload_file`.
`fuel` bounds the remaining iterations; the wrapper supplies `maxRetries`,
which makes the `fuel = 0` case coincide with the loop running out. -/
def uploadFileGo (overwrite : Bool) (env : StoreEnv) (maxRetries : Nat) :
    Nat → Nat → UploadResult × List StoreOp
  | _, 0 => (UploadResult.other_error "Upload failed after all retry attempts", [])
  | attempt, fuel + 1 =>
    if attempt < maxRetries then
      if attempt > 0 && env.existsAt attempt then
        (UploadResult.success_result env.publicUrl, [StoreOp.listOp])
      else
        let checkOps : List StoreOp := if attempt > 0 then [StoreOp.listOp] else []
        let delOps : List StoreOp :=
          if overwrite && attempt == 0 then
            StoreOp.listOp :: (if env.existsForDelete then [StoreOp.removeOp] else [])
          else []
        let pre := checkOps ++ delOps
        match env.putResult attempt with
        | none => (UploadResult.success_result env.publicUrl, pre ++ [StoreOp.putOp])
        | some err =>
          if attempt > 0 && isDuplicateError err then
            (UploadResult.success_result env.publicUrl, pre ++ [StoreOp.putOp])
          else if attempt + 1 < maxRetries && isTransientError err then
            let next := uploadFileGo overwrite env maxRetries (attempt + 1) fuel
            (next.1, pre ++ [StoreOp.putOp] ++ next.2)
          else if isDuplicateError err then
            if attempt + 1 == maxRetries then
              (UploadResult.success_result env.publicUrl, pre ++ [StoreOp.putOp])
            else
              (UploadResult.duplicate_error err, pre ++ [StoreOp.putOp])
          else if isFileTooLargeError err then
            (UploadResult.file_too_large_error err, pre ++ [StoreOp.putOp])
          else if attempt + 1 == maxRetries then
            (UploadResult.other_error err, pre ++ [StoreOp.putOp])
          else
            let next := uploadFileGo overwrite env maxRetries (attempt + 1) fuel
            (next.1, pre ++ [StoreOp.putOp] ++ next.2)
    else
      (UploadResult.other_error "Upload failed after all retry attempts", [])

/-- `upload_file` with its default `max_retries=3`, returning the result and
the trace of store operations it issued. -/
def UploadManager.uploadFile (overwrite : Bool) (env : StoreEnv) :
    UploadResult × List StoreOp :=
  uploadFileGo overwrite env 3 0 3

/-- Number of put operations in a store-op trace. -/
def countPut (ops : List StoreOp) : Nat := ops.countP (· == StoreOp.putOp)

/-! ## Per-slide environment and the compression capability -/

/-- Oracle for one slide pipeline run: the outcomes of its download, of the
external compressors at each quality parameter, the presence of the original
file for recompression, and the store oracle of each `upload_file` call the
controller makes (indexed in call order). -/
structure SlideEnv where
  downloadOk : Bool
  downloadErr : String
  origSizeKB : Nat
  /-- HandBrake success at the given rf. -/
  compressOk : Nat → Bool
  /-- output size at the given rf when HandBrake succeeds. -/
  compressedSizeKB : Nat → Nat
  imageCompressOk : Bool
  imageCompressedKB : Nat
  /-- `find_original_video_file` finds the downloaded original. -/
  originalFound : Bool
  /-- store oracle for the n-th `upload_file` call of this slide. -/
  store : Nat → StoreEnv
  /-- the direct `storage.remove` of the MediaProcessor duplicate branch raises. -/
  removeThrows : Bool

/-- `VideoCompressor.compress` of `utils/compression.py`: fresh stats with
`attempts = 1`; `final_rf` is set to the requested rf only on success. -/
def VideoCompressor.compress (env : SlideEnv) (rf : Nat) : Bool × CompressionStats :=
  let stats : CompressionStats :=
    { CompressionStats.init with
      original_size_kb := env.origSizeKB, method := "handbrake" }
  if env.compressOk rf then
    (true, { stats with compressed_size_kb := env.compressedSizeKB rf, final_rf := some rf })
  else
    (false, stats)

/-- `ImageCompressor.compress` of `utils/compression.py`. -/
def ImageCompressor.compress (env : SlideEnv) : Bool × CompressionStats :=
  let stats : CompressionStats :=
    { CompressionStats.init with
      original_size_kb := env.origSizeKB, method := "pillow" }
  if env.imageCompressOk then
    (true, { stats with compressed_size_kb := env.imageCompressedKB })
  else
    (false, stats)

/-! ## The retry / recompression controller -/

/-- One iteration of the `while current_rf < max_video_rf` loop of
`_retry_with_higher_compression` (identical in `slide_processor.py` and
`processor.py`): the rf tried, whether the original file was found, whether
recompression succeeded, and the upload outcome when one was attempted. -/
structure RetryIter where
  rf : Nat
  originalFound : Bool
  compressOk : Bool
  uploadResult : Option UploadResult
deriving DecidableEq

/-- The `while` loop of `_retry_with_higher_compression`. `baseAttempts` is
`stats.attempts` of the stats object handed to the controller: every retry
iteration sets its fresh stats to `baseAttempts + 1` (the source increments
from the original object each time, not cumulatively). `uploadIdx` counts the
`upload_file` calls already made for this slide. The fuel is supplied as
`maxRf - currentRf` by the wrapper; the rf strictly increases each iteration,
so the fuel never runs out before the loop guard fails. -/
def retryLoopGo (env : SlideEnv) (overwrite : Bool) (maxRf baseAttempts : Nat) :
    Nat → Nat → Nat → String × List RetryIter × Option CompressionStats
  | 0, _, _ => ("", [], none)
  | fuel + 1, currentRf, uploadIdx =>
    if currentRf < maxRf then
      let retryRf := min (currentRf + 2) maxRf
      if env.originalFound then
        let comp := VideoCompressor.compress env retryRf
        if comp.1 then
          let newStats := { comp.2 with attempts := baseAttempts + 1 }
          let retryResult := (UploadManager.uploadFile overwrite (env.store uploadIdx)).1
          let iter : RetryIter := ⟨retryRf, true, true, some retryResult⟩
          if retryResult.success then
            (retryResult.url, [iter], some newStats)
          else if retryResult.error_type ≠ ErrorType.FILE_TOO_LARGE then
            ("", [iter], none)
          else
            let next := retryLoopGo env overwrite maxRf baseAttempts fuel retryRf (uploadIdx + 1)
            (next.1, iter :: next.2.1, next.2.2)
        else
          let iter : RetryIter := ⟨retryRf, true, false, none⟩
          let next := retryLoopGo env overwrite maxRf baseAttempts fuel retryRf uploadIdx
          (next.1, iter :: next.2.1, next.2.2)
      else
        ("", [⟨retryRf, false, false, none⟩], none)
    else
      ("", [], none)

/-- The starting rf of the retry controller:
`stats.final_rf if stats.final_rf else self.video_rf` (Python truthiness,
so a recorded rf of 0 also falls back to the configured initial rf). -/
def currentRfOf (stats : CompressionStats) (videoRf : Nat) : Nat :=
  match stats.final_rf with
  | some rf => if rf = 0 then videoRf else rf
  | none => videoRf

/-- `_retry_with_higher_compression`: the guard `current_rf >= max_video_rf`
returns empty before the loop; otherwise the loop runs. Returns the url
(empty on failure), the iteration trace, and the fresh stats object handed to
the successful upload when there was one. -/
def retryWithHigherCompression (env : SlideEnv) (overwrite : Bool)
    (videoRf maxRf : Nat) (stats : CompressionStats) (uploadIdx : Nat) :
    String × List RetryIter × Option CompressionStats :=
  let currentRf := currentRfOf stats videoRf
  if currentRf ≥ maxRf then
    ("", [], none)
  else
    retryLoopGo env overwrite maxRf stats.attempts (maxRf - currentRf) currentRf uploadIdx

/-- What a controller invocation did: the returned url (empty on failure),
every controller-level upload result in order, the count of direct
`storage.remove` calls issued by the controller itself, the recompression
trace, and the fresh stats handed to a successful loop upload. -/
structure CtrlResult where
  url : String
  uploads : List UploadResult
  directRemoves : Nat
  trace : List RetryIter
  uploadedStats : Option CompressionStats
deriving DecidableEq

/-- `SlideProcessor._upload_with_retry` of `slide_processor.py`: on a
Duplicate failure both overwrite branches return the empty string (the
comment there defers overwrite handling to the upload manager); only a
TooLarge failure on a video enters the recompression loop. -/
def SlideProcessor.uploadWithRetry (env : SlideEnv) (overwrite : Bool)
    (videoRf maxRf : Nat) (fileType : String) (stats : CompressionStats) :
    CtrlResult :=
  let result := (UploadManager.uploadFile overwrite (env.store 0)).1
  if result.success then
    ⟨result.url, [result], 0, [], none⟩
  else if result.error_type = ErrorType.DUPLICATE then
    ⟨"", [result], 0, [], none⟩
  else if result.error_type = ErrorType.FILE_TOO_LARGE && fileType == "video" then
    let r := retryWithHigherCompression env overwrite videoRf maxRf stats 1
    ⟨r.1, result :: r.2.1.filterMap RetryIter.uploadResult, 0, r.2.1, r.2.2⟩
  else
    ⟨"", [result], 0, [], none⟩

/-- `MediaProcessor.upload_with_retry` of `processor.py`: on a Duplicate
failure with the overwrite flag it removes the remote object directly and
re-attempts the upload once; an exception from the remove (or a failed
re-attempt) yields the empty string. -/
def MediaProcessor.uploadWithRetry (env : SlideEnv) (overwrite : Bool)
    (videoRf maxRf : Nat) (fileType : String) (stats : CompressionStats) :
    CtrlResult :=
  let result := (UploadManager.uploadFile overwrite (env.store 0)).1
  if result.success then
    ⟨result.url, [result], 0, [], none⟩
  else if result.error_type = ErrorType.DUPLICATE then
    if overwrite then
      if env.removeThrows then
        ⟨"", [result], 1, [], none⟩
      else
        let retryResult := (UploadManager.uploadFile overwrite (env.store 1)).1
        if retryResult.success then
          ⟨retryResult.url, [result, retryResult], 1, [], none⟩
        else
          ⟨"", [result, retryResult], 1, [], none⟩
    else
      ⟨"", [result], 0, [], none⟩
  else if result.error_type = ErrorType.FILE_TOO_LARGE && fileType == "video" then
    let r := retryWithHigherCompression env overwrite videoRf maxRf stats 1
    ⟨r.1, result :: r.2.1.filterMap RetryIter.uploadResult, 0, r.2.1, r.2.2⟩
  else
    ⟨"", [result], 0, [], none⟩

/-! ## Slide name and file extension extraction -/

/-- Leading decimal digits of a character list, and the rest. -/
def digitSpan : List Char → List Char × List Char
  | [] => ([], [])
  | c :: t =>
    if c.isDigit then
      let r := digitSpan t
      (c :: r.1, r.2)
    else
      ([], c :: t)

/-- Match of the pattern `(Slide_\d+)\.(jpg|jpeg|png|mp4)` anchored at the
start of the list, returning group 1. -/
def matchSlideAt (cs : List Char) : Option (List Char) :=
  if charsStartWith "Slide_".data cs then
    let afterTag := cs.drop 6
    let span := digitSpan afterTag
    if span.1.isEmpty then none
    else
      match span.2 with
      | '.' :: r2 =>
        if charsStartWith "jpg".data r2 || charsStartWith "jpeg".data r2 ||
            charsStartWith "png".data r2 || charsStartWith "mp4".data r2 then
          some ("Slide_".data ++ span.1)
        else none
      | _ => none
  else none

/-- `re.search` of the slide-name pattern: leftmost start position wins. -/
def searchSlideName : List Char → Option (List Char)
  | [] => none
  | c :: t =>
    match matchSlideAt (c :: t) with
    | some r => some r
    | none => searchSlideName t

/-- The part of a string before the first occurrence of the character,
`s.split(ch)[0]`. -/
def takeUntilChar (ch : Char) : List Char → List Char
  | [] => []
  | c :: t => if c == ch then [] else c :: takeUntilChar ch t

/-- The part after the last occurrence of the character,
`s.split(ch)[-1]`. -/
def afterLastChar (ch : Char) (cs : List Char) : List Char :=
  match cs with
  | [] => []
  | c :: t =>
    let rest := afterLastChar ch t
    if (c :: t).contains ch then rest else c :: t

/-- `pathlib` suffix of a bare file name: the run from the last dot, provided
that dot is neither the first nor the last character. -/
def nameSuffix (name : List Char) : List Char :=
  let n := name.length
  let idxs := (List.range n).filter fun i =>
    name.getD i ' ' == '.' && 0 < i && i + 1 < n
  match idxs.getLast? with
  | some i => name.drop i
  | none => []

/-- `pathlib` stem of a bare file name: the name with its suffix removed. -/
def nameStem (name : List Char) : List Char :=
  name.take (name.length - (nameSuffix name).length)

/-- `extract_slide_name_from_url` (identical in `file_processor.py` and
`processor.py`): the regex match, else the stem of the final url component
with any query string removed. -/
def extractSlideNameFromUrl (url : String) : String :=
  match searchSlideName url.data with
  | some r => ⟨r⟩
  | none =>
    let filename := takeUntilChar '?' (afterLastChar '/' url.data)
    ⟨nameStem filename⟩

/-- `get_file_extension` of `utils/file_utils.py`:
`Path(url.split("?")[0]).suffix`; `pathlib` ignores trailing slashes when
taking the final component. -/
def getFileExtension (url : String) : String :=
  let noQuery := takeUntilChar '?' url.data
  let trimmed := ((noQuery.reverse).dropWhile (· == '/')).reverse
  ⟨nameSuffix (afterLastChar '/' trimmed)⟩

/-! ## The per-slide pipeline -/

/-- One input record: `{"slide": ..., "url": ...}`. -/
structure SlideData where
  slide : String
  url : String
deriving DecidableEq

/-- The `compression_details` status entry (its float ratio is not carried). -/
structure CompressionDetails where
  original_size_kb : Nat
  compressed_size_kb : Nat
  method : String
  final_rf : Option Nat
deriving DecidableEq

/-- `SlideStatus`: the per-slide status dict of `process_slide` /
`process_single_slide` (the wall-clock `processing_time` is not carried). -/
structure SlideStatus where
  json_slide_id : String
  extracted_slide_name : String
  original_url : String
  new_url : String
  file_type : String
  download_success : Bool
  compression_success : Bool
  compression_details : Option CompressionDetails
  upload_success : Bool
  upload_attempts : Nat
  error_message : String
deriving DecidableEq

/-- Result of `process_file` / `_process_file_by_type`: the file type tag and
the stats object that flows to the upload step. -/
structure ProcessedFile where
  fileType : String
  stats : CompressionStats
deriving DecidableEq

/-- `FileProcessor.process_file` (same dispatch as
`MediaProcessor._process_file_by_type`): `.mp4` goes to video compression,
`.jpg/.jpeg/.png` to image compression, anything else passes through; a
compression failure falls back to the original file with `method = "none"`. -/
def FileProcessor.processFile (env : SlideEnv) (videoRf : Nat) (fileExt : String) :
    ProcessedFile :=
  let ext := strLower fileExt
  if ext == ".mp4" then
    let comp := VideoCompressor.compress env videoRf
    if comp.1 then ⟨"video", comp.2⟩
    else ⟨"video", CompressionStats.create_no_compression_stats env.origSizeKB⟩
  else if ext == ".jpg" || ext == ".jpeg" || ext == ".png" then
    let comp := ImageCompressor.compress env
    if comp.1 then ⟨"image", comp.2⟩
    else ⟨"image", CompressionStats.create_no_compression_stats env.origSizeKB⟩
  else
    ⟨"unknown", CompressionStats.create_no_compression_stats env.origSizeKB⟩

/-- The `compression_details` dict built by the pipeline (Python truthiness:
a `final_rf` of 0 is written as `None`). -/
def mkDetails (stats : CompressionStats) : CompressionDetails :=
  { original_size_kb := stats.original_size_kb
    compressed_size_kb := stats.compressed_size_kb
    method := stats.method
    final_rf := match stats.final_rf with
      | some 0 => none
      | x => x }

/-- Everything a pipeline run produced: the terminal status, the stats object
handed to `stats_manager.add_stats` (when the run got that far), and the
controller outcome. -/
structure SlideOutcome where
  status : SlideStatus
  recordedStats : Option CompressionStats
  ctrl : Option CtrlResult
deriving DecidableEq

/-- The pipeline body shared verbatim by `SlideProcessor.process_slide` and
`MediaProcessor.process_single_slide`; `uploadWith` is the revision's
upload-with-retry controller. The only statement that can raise inside the
`try` is the download, so the broad `except` reduces to the download branch. -/
def processSlideWith
    (uploadWith : SlideEnv → Bool → Nat → Nat → String → CompressionStats → CtrlResult)
    (env : SlideEnv) (overwrite : Bool) (videoRf maxRf : Nat)
    (slideData : SlideData) : SlideOutcome :=
  let slideName := extractSlideNameFromUrl slideData.url
  let fileExt := getFileExtension slideData.url
  let status0 : SlideStatus :=
    { json_slide_id := slideData.slide
      extracted_slide_name := slideName
      original_url := slideData.url
      new_url := ""
      file_type := if fileExt.data.isEmpty then "unknown" else ⟨fileExt.data.drop 1⟩
      download_success := false
      compression_success := false
      compression_details := none
      upload_success := false
      upload_attempts := 0
      error_message := "" }
  if !env.downloadOk then
    { status := { status0 with
        error_message := "Download failed: " ++ env.downloadErr }
      recordedStats := none
      ctrl := none }
  else
    let pf := FileProcessor.processFile env videoRf fileExt
    let status1 := { status0 with
      download_success := true
      compression_success := pf.stats.method ≠ "none"
      compression_details :=
        if pf.stats.method ≠ "none" then some (mkDetails pf.stats) else none }
    let ctrl := uploadWith env overwrite videoRf maxRf pf.fileType pf.stats
    let status2 := { status1 with upload_attempts := pf.stats.attempts }
    let status3 :=
      if ctrl.url ≠ "" then
        { status2 with upload_success := true, new_url := ctrl.url }
      else
        { status2 with
          upload_success := false
          error_message :=
            if status2.error_message = "" then "Upload failed" else status2.error_message }
    { status := status3, recordedStats := some pf.stats, ctrl := some ctrl }

/-- `SlideProcessor.process_slide` of `slide_processor.py`. -/
def SlideProcessor.processSlide (env : SlideEnv) (overwrite : Bool)
    (videoRf maxRf : Nat) (slideData : SlideData) : SlideOutcome :=
  processSlideWith SlideProcessor.uploadWithRetry env overwrite videoRf maxRf slideData

/-- `MediaProcessor.process_single_slide` of `processor.py`. -/
def MediaProcessor.processSingleSlide (env : SlideEnv) (overwrite : Bool)
    (videoRf maxRf : Nat) (slideData : SlideData) : SlideOutcome :=
  processSlideWith MediaProcessor.uploadWithRetry env overwrite videoRf maxRf slideData

/-! ## The worker pool -/

/-- `MediaProcessor.process_slides`: every record is submitted to the pool and
each worker runs `process_single_slide` to completion; the status inventory
collects one record per slide (the thread pool and `as_completed` only affect
the order results arrive in, which the pool-level theorems quantify over as an
arbitrary permutation). `envOf i` is the slide-local environment of the i-th
request. The mapping keeps `slideName -> url` for uploaded slides. -/
def MediaProcessor.processSlides (envOf : Nat → SlideEnv) (overwrite : Bool)
    (videoRf maxRf : Nat) (slides : List SlideData) :
    List (String × String) × List SlideStatus :=
  let statuses := (List.range slides.length).map fun i =>
    (MediaProcessor.processSingleSlide (envOf i) overwrite videoRf maxRf
      (slides.getD i ⟨"", ""⟩)).status
  let mapping := (statuses.filter fun st => st.upload_success && st.new_url ≠ "").map
    fun st => (st.extracted_slide_name, st.new_url)
  (mapping, statuses)

/-! ## Concrete store and slide environments for scenarios -/

/-- A store that rejects every put as too large (HTTP 413 class). -/
def tooLargeStore : StoreEnv :=
  { existsAt := fun _ => false
    existsForDelete := false
    putResult := fun _ => some "413 payload too large"
    publicUrl := "" }

/-- A store that accepts the put and serves the given public url. -/
def okStore (url : String) : StoreEnv :=
  { existsAt := fun _ => false
    existsForDelete := false
    putResult := fun _ => none
    publicUrl := url }

/-- A store that rejects every put as a 409 duplicate. -/
def dupStore : StoreEnv :=
  { existsAt := fun _ => false
    existsForDelete := false
    putResult := fun _ => some "409 duplicate resource already there"
    publicUrl := "" }

/-- C1 scenario: a video whose uploads at rf 28, 30 and 32 are rejected as
too large and whose upload at rf 34 is accepted. -/
def envC1 : SlideEnv :=
  { downloadOk := true
    downloadErr := ""
    origSizeKB := 120000
    compressOk := fun _ => true
    compressedSizeKB := fun rf => 80000 - rf * 1000
    imageCompressOk := true
    imageCompressedKB := 500
    originalFound := true
    store := fun i => if i == 3 then okStore "https://cdn.example/Slide_001.mp4" else tooLargeStore
    removeThrows := false }

def slideC1 : SlideData := ⟨"1", "https://bucket.example/media/Slide_001.mp4"⟩

/-- A loop iteration that lets the `while` continue: the original was found,
the rf is still below the ceiling, and either recompression failed (no upload
was attempted) or the upload failed with the size classification. -/
def continuesIter (maxRf : Nat) (it : RetryIter) : Bool :=
  it.originalFound && decide (it.rf < maxRf) &&
    (match it.uploadResult with
     | none => !it.compressOk
     | some r => !r.success && r.error_type == ErrorType.FILE_TOO_LARGE)

/-- C2 environment: the upload at the initial quality is rejected as too
large, recompression at quality 30 fails, recompression at 32 succeeds and
its upload is accepted. -/
def envC2 : SlideEnv :=
  { downloadOk := true
    downloadErr := ""
    origSizeKB := 90000
    compressOk := fun rf => rf != 30
    compressedSizeKB := fun _ => 50000
    imageCompressOk := true
    imageCompressedKB := 400
    originalFound := true
    store := fun i => if i == 0 then tooLargeStore else okStore "https://cdn.example/Slide_002.mp4"
    removeThrows := false }

def slideC2 : SlideData := ⟨"2", "https://bucket.example/media/Slide_002.mp4"⟩

/-- The stats object handed to the C2 retry controller: the initial video
compression succeeded at quality 28. -/
def statsW : CompressionStats := ⟨90000, 41000, "handbrake", 1, some 28⟩

/-- C3 environment: the first upload call hits a 409 duplicate, a second
upload call would succeed. -/
def envC3 : SlideEnv :=
  { downloadOk := true
    downloadErr := ""
    origSizeKB := 70000
    compressOk := fun _ => true
    compressedSizeKB := fun _ => 30000
    imageCompressOk := true
    imageCompressedKB := 300
    originalFound := true
    store := fun i => if i == 0 then dupStore else okStore "https://cdn.example/Slide_003.mp4"
    removeThrows := false }

def slideC3 : SlideData := ⟨"3", "https://bucket.example/media/Slide_003.mp4"⟩

/-- Environment in which the download of the slide fails. -/
def envDownloadFail : SlideEnv :=
  { downloadOk := false
    downloadErr := "name resolution failure"
    origSizeKB := 0
    compressOk := fun _ => false
    compressedSizeKB := fun _ => 0
    imageCompressOk := false
    imageCompressedKB := 0
    originalFound := false
    store := fun _ => tooLargeStore
    removeThrows := false }

/-- Slide list for the pool witness: one slide that uploads and one whose
download fails. -/
def slidesW : List SlideData :=
  [⟨"1", "https://bucket.example/media/Slide_001.mp4"⟩,
   ⟨"9", "https://bucket.example/media/Slide_009.jpg"⟩]

/-- Per-slide environments for the pool witness. -/
def envOfW : Nat → SlideEnv :=
  fun i => if i = 0 then envC1 else envDownloadFail

/-- C7 environment: an image asset whose single upload is rejected as too
large. -/
def envC7 : SlideEnv :=
  { downloadOk := true
    downloadErr := ""
    origSizeKB := 9000
    compressOk := fun _ => true
    compressedSizeKB := fun _ => 8000
    imageCompressOk := true
    imageCompressedKB := 8000
    originalFound := true
    store := fun _ => tooLargeStore
    removeThrows := false }

def slideC7 : SlideData := ⟨"7", "https://bucket.example/media/Slide_007.jpg"⟩

/-! ## Concrete evaluation checks of the embedding -/

example : strContainsSub "duplicate 409 key" "409" = true := by decide

example : strContainsSub "payload too large" "409" = false := by decide

example : strLower "Payload Too LARGE" = "payload too large" := by decide

example : extractSlideNameFromUrl "https://x.example/a/Slide_007.mp4?tok=1" = "Slide_007" := by decide

example : extractSlideNameFromUrl "https://x.example/a/intro.webm" = "intro" := by decide

example : getFileExtension "https://x.example/a/Slide_007.mp4?tok=1" = ".mp4" := by decide

example : getFileExtension "https://x.example/a/pic.PNG" = ".PNG" := by decide

example : isFileTooLargeError "413 payload too large" = true := by decide

example : isTransientError "413 payload too large" = false := by decide

example : isDuplicateError "409 duplicate resource already there" = true := by decide

example : isTransientError "409 duplicate resource already there" = false := by decide

example :
    (SlideProcessor.processSlide envC1 false 28 35 slideC1).status.upload_success = true := by
  decide

example :
    ((SlideProcessor.processSlide envC1 false 28 35 slideC1).ctrl.map
      fun c => c.trace.map RetryIter.rf) = some [30, 32, 34] := by
  decide

example :
    (SlideProcessor.processSlide envC1 false 28 35 slideC1).status.upload_attempts = 1 := by
  decide

example :
    ((SlideProcessor.processSlide envC1 false 28 35 slideC1).ctrl.map
      CtrlResult.uploadedStats) =
      some (some { original_size_kb := 120000, compressed_size_kb := 46000,
                   method := "handbrake", attempts := 2, final_rf := some 34 }) := by
  decide

example :
    ((SlideProcessor.processSlide envC1 false 28 35 slideC1).recordedStats.map
      CompressionStats.final_rf) = some (some 28) := by
  decide

theorem retryLoopGo_nil_of_ge (env : SlideEnv) (ow : Bool) (maxRf base : Nat)
    (fuel cur idx : Nat) (h : ¬ cur < maxRf) :
    (retryLoopGo env ow maxRf base fuel cur idx).2.1 = [] := by
  cases fuel <;> simp [retryLoopGo, h]

theorem retryLoopGo_lt_of_ne_nil (env : SlideEnv) (ow : Bool) (maxRf base : Nat)
    (fuel cur idx : Nat) (h : (retryLoopGo env ow maxRf base fuel cur idx).2.1 ≠ []) :
    cur < maxRf := by
  by_contra hc
  exact h (retryLoopGo_nil_of_ge env ow maxRf base fuel cur idx hc)

theorem retryLoopGo_step_noOrig (env : SlideEnv) (ow : Bool) (maxRf base : Nat)
    (fuel cur idx : Nat) (h1 : cur < maxRf) (h2 : env.originalFound = false) :
    retryLoopGo env ow maxRf base (fuel + 1) cur idx =
      ("", [⟨min (cur + 2) maxRf, false, false, none⟩], none) := by
  simp [retryLoopGo, h1, h2]

theorem retryLoopGo_step_compressFail (env : SlideEnv) (ow : Bool) (maxRf base : Nat)
    (fuel cur idx : Nat) (h1 : cur < maxRf) (h2 : env.originalFound = true)
    (h3 : env.compressOk (min (cur + 2) maxRf) = false) :
    retryLoopGo env ow maxRf base (fuel + 1) cur idx =
      ((retryLoopGo env ow maxRf base fuel (min (cur + 2) maxRf) idx).1,
       ⟨min (cur + 2) maxRf, true, false, none⟩ ::
         (retryLoopGo env ow maxRf base fuel (min (cur + 2) maxRf) idx).2.1,
       (retryLoopGo env ow maxRf base fuel (min (cur + 2) maxRf) idx).2.2) := by
  simp [retryLoopGo, h1, h2, VideoCompressor.compress, h3]

theorem retryLoopGo_step_uploadSuccess (env : SlideEnv) (ow : Bool) (maxRf base : Nat)
    (fuel cur idx : Nat) (h1 : cur < maxRf) (h2 : env.originalFound = true)
    (h3 : env.compressOk (min (cur + 2) maxRf) = true)
    (h4 : (UploadManager.uploadFile ow (env.store idx)).1.success = true) :
    retryLoopGo env ow maxRf base (fuel + 1) cur idx =
      ((UploadManager.uploadFile ow (env.store idx)).1.url,
       [⟨min (cur + 2) maxRf, true, true,
         some (UploadManager.uploadFile ow (env.store idx)).1⟩],
       some { original_size_kb := env.origSizeKB
              compressed_size_kb := env.compressedSizeKB (min (cur + 2) maxRf)
              method := "handbrake"
              attempts := base + 1
              final_rf := some (min (cur + 2) maxRf) }) := by
  simp [retryLoopGo, h1, h2, VideoCompressor.compress, h3, h4, CompressionStats.init]

theorem retryLoopGo_step_uploadOther (env : SlideEnv) (ow : Bool) (maxRf base : Nat)
    (fuel cur idx : Nat) (h1 : cur < maxRf) (h2 : env.originalFound = true)
    (h3 : env.compressOk (min (cur + 2) maxRf) = true)
    (h4 : (UploadManager.uploadFile ow (env.store idx)).1.success = false)
    (h5 : (UploadManager.uploadFile ow (env.store idx)).1.error_type ≠
      ErrorType.FILE_TOO_LARGE) :
    retryLoopGo env ow maxRf base (fuel + 1) cur idx =
      ("", [⟨min (cur + 2) maxRf, true, true,
            some (UploadManager.uploadFile ow (env.store idx)).1⟩], none) := by
  simp [retryLoopGo, h1, h2, VideoCompressor.compress, h3, h4, h5]

theorem retryLoopGo_step_uploadTooLarge (env : SlideEnv) (ow : Bool) (maxRf base : Nat)
    (fuel cur idx : Nat) (h1 : cur < maxRf) (h2 : env.originalFound = true)
    (h3 : env.compressOk (min (cur + 2) maxRf) = true)
    (h4 : (UploadManager.uploadFile ow (env.store idx)).1.success = false)
    (h5 : (UploadManager.uploadFile ow (env.store idx)).1.error_type =
      ErrorType.FILE_TOO_LARGE) :
    retryLoopGo env ow maxRf base (fuel + 1) cur idx =
      ((retryLoopGo env ow maxRf base fuel (min (cur + 2) maxRf) (idx + 1)).1,
       ⟨min (cur + 2) maxRf, true, true,
         some (UploadManager.uploadFile ow (env.store idx)).1⟩ ::
         (retryLoopGo env ow maxRf base fuel (min (cur + 2) maxRf) (idx + 1)).2.1,
       (retryLoopGo env ow maxRf base fuel (min (cur + 2) maxRf) (idx + 1)).2.2) := by
  simp [retryLoopGo, h1, h2, VideoCompressor.compress, h3, h4, h5]

theorem retryLoopGo_trace_props (env : SlideEnv) (ow : Bool) (maxRf base : Nat) :
    ∀ fuel cur idx,
      (retryLoopGo env ow maxRf base fuel cur idx).2.1.length ≤ fuel ∧
      (∀ it ∈ (retryLoopGo env ow maxRf base fuel cur idx).2.1,
        cur < it.rf ∧ it.rf ≤ maxRf) ∧
      List.Chain' (· < ·)
        ((retryLoopGo env ow maxRf base fuel cur idx).2.1.map RetryIter.rf) := by
  intro fuel
  induction fuel with
  | zero => intro cur idx; simp [retryLoopGo]
  | succ fuel ih =>
    intro cur idx
    by_cases h1 : cur < maxRf
    · have hlt : cur < min (cur + 2) maxRf := by omega
      have hle : min (cur + 2) maxRf ≤ maxRf := by omega
      by_cases h2 : env.originalFound = true
      · by_cases h3 : env.compressOk (min (cur + 2) maxRf) = true
        · by_cases h4 : (UploadManager.uploadFile ow (env.store idx)).1.success = true
          · rw [retryLoopGo_step_uploadSuccess env ow maxRf base fuel cur idx h1 h2 h3 h4]
            refine ⟨by simp, ?_, by simp⟩
            intro it hit
            simp only [List.mem_singleton] at hit
            subst hit
            exact ⟨hlt, hle⟩
          · have h4' : (UploadManager.uploadFile ow (env.store idx)).1.success = false := by
              simpa using h4
            by_cases h5 : (UploadManager.uploadFile ow (env.store idx)).1.error_type =
                ErrorType.FILE_TOO_LARGE
            · rw [retryLoopGo_step_uploadTooLarge env ow maxRf base fuel cur idx h1 h2 h3 h4' h5]
              obtain ⟨ihlen, ihmem, ihchain⟩ := ih (min (cur + 2) maxRf) (idx + 1)
              refine ⟨by simpa using ihlen, ?_, ?_⟩
              · intro it hit
                rcases List.mem_cons.mp hit with hh | ht
                · subst hh; exact ⟨hlt, hle⟩
                · obtain ⟨hgt, hle2⟩ := ihmem it ht
                  exact ⟨lt_trans hlt hgt, hle2⟩
              · rw [List.map_cons, List.chain'_cons']
                refine ⟨?_, ihchain⟩
                intro b hb
                obtain ⟨it, hit, hbeq⟩ := List.mem_map.mp (List.mem_of_mem_head? hb)
                subst hbeq
                exact (ihmem it hit).1
            · rw [retryLoopGo_step_uploadOther env ow maxRf base fuel cur idx h1 h2 h3 h4' h5]
              refine ⟨by simp, ?_, by simp⟩
              intro it hit
              simp only [List.mem_singleton] at hit
              subst hit
              exact ⟨hlt, hle⟩
        · have h3' : env.compressOk (min (cur + 2) maxRf) = false := by simpa using h3
          rw [retryLoopGo_step_compressFail env ow maxRf base fuel cur idx h1 h2 h3']
          obtain ⟨ihlen, ihmem, ihchain⟩ := ih (min (cur + 2) maxRf) idx
          refine ⟨by simpa using ihlen, ?_, ?_⟩
          · intro it hit
            rcases List.mem_cons.mp hit with hh | ht
            · subst hh; exact ⟨hlt, hle⟩
            · obtain ⟨hgt, hle2⟩ := ihmem it ht
              exact ⟨lt_trans hlt hgt, hle2⟩
          · rw [List.map_cons, List.chain'_cons']
            refine ⟨?_, ihchain⟩
            intro b hb
            obtain ⟨it, hit, hbeq⟩ := List.mem_map.mp (List.mem_of_mem_head? hb)
            subst hbeq
            exact (ihmem it hit).1
      · have h2' : env.originalFound = false := by simpa using h2
        rw [retryLoopGo_step_noOrig env ow maxRf base fuel cur idx h1 h2']
        refine ⟨by simp, ?_, by simp⟩
        intro it hit
        simp only [List.mem_singleton] at hit
        subst hit
        exact ⟨hlt, hle⟩
    · simp [retryLoopGo, h1]

theorem dropLast_cons_all {α : Type} (p : α → Bool) (a : α) (l : List α)
    (ha : l ≠ [] → p a = true) (hl : l.dropLast.all p = true) :
    (a :: l).dropLast.all p = true := by
  cases l with
  | nil => simp
  | cons b t =>
    rw [List.dropLast_cons₂, List.all_cons, ha (by simp), Bool.true_and]
    exact hl

theorem retryLoopGo_dropLast_continues (env : SlideEnv) (ow : Bool) (maxRf base : Nat) :
    ∀ fuel cur idx,
      (retryLoopGo env ow maxRf base fuel cur idx).2.1.dropLast.all
        (continuesIter maxRf) = true := by
  intro fuel
  induction fuel with
  | zero => intro cur idx; simp [retryLoopGo]
  | succ fuel ih =>
    intro cur idx
    by_cases h1 : cur < maxRf
    · by_cases h2 : env.originalFound = true
      · by_cases h3 : env.compressOk (min (cur + 2) maxRf) = true
        · by_cases h4 : (UploadManager.uploadFile ow (env.store idx)).1.success = true
          · rw [retryLoopGo_step_uploadSuccess env ow maxRf base fuel cur idx h1 h2 h3 h4]
            simp
          · have h4' : (UploadManager.uploadFile ow (env.store idx)).1.success = false := by
              simpa using h4
            by_cases h5 : (UploadManager.uploadFile ow (env.store idx)).1.error_type =
                ErrorType.FILE_TOO_LARGE
            · rw [retryLoopGo_step_uploadTooLarge env ow maxRf base fuel cur idx h1 h2 h3 h4' h5]
              refine dropLast_cons_all _ _ _ ?_ (ih (min (cur + 2) maxRf) (idx + 1))
              intro hne
              have hlt2 := retryLoopGo_lt_of_ne_nil env ow maxRf base fuel
                (min (cur + 2) maxRf) (idx + 1) hne
              simp [continuesIter, h2, hlt2, h4', h5]
            · rw [retryLoopGo_step_uploadOther env ow maxRf base fuel cur idx h1 h2 h3 h4' h5]
              simp
        · have h3' : env.compressOk (min (cur + 2) maxRf) = false := by simpa using h3
          rw [retryLoopGo_step_compressFail env ow maxRf base fuel cur idx h1 h2 h3']
          refine dropLast_cons_all _ _ _ ?_ (ih (min (cur + 2) maxRf) idx)
          intro hne
          have hlt2 := retryLoopGo_lt_of_ne_nil env ow maxRf base fuel
            (min (cur + 2) maxRf) idx hne
          simp [continuesIter, h2, hlt2]
      · have h2' : env.originalFound = false := by simpa using h2
        rw [retryLoopGo_step_noOrig env ow maxRf base fuel cur idx h1 h2']
        simp
    · simp [retryLoopGo, h1]

theorem tooLarge_imp_not_dup (e : String) (h : isFileTooLargeError e = true) :
    isDuplicateError e = false := by
  unfold isFileTooLargeError at h
  unfold isDuplicateError
  by_cases h1 : strContainsSub (strLower e) "duplicate" = true
  · simp [h1] at h
  · simp only [Bool.not_eq_true] at h1
    simp [h1]

theorem uploadFile_put0_success (ow : Bool) (env : StoreEnv)
    (h : env.putResult 0 = none) :
    UploadManager.uploadFile ow env =
      (UploadResult.success_result env.publicUrl,
       (if ow then
          StoreOp.listOp :: (if env.existsForDelete then [StoreOp.removeOp] else [])
        else []) ++ [StoreOp.putOp]) := by
  show uploadFileGo ow env 3 0 (2 + 1) = _
  simp [uploadFileGo, h]

theorem uploadFile_put0_dup (ow : Bool) (env : StoreEnv) (e : String)
    (hput : env.putResult 0 = some e) (htr : isTransientError e = false)
    (hdup : isDuplicateError e = true) :
    (UploadManager.uploadFile ow env).1 = UploadResult.duplicate_error e := by
  show (uploadFileGo ow env 3 0 (2 + 1)).1 = _
  simp [uploadFileGo, hput, htr, hdup]

theorem uploadFile_put0_tooLarge (ow : Bool) (env : StoreEnv) (e : String)
    (hput : env.putResult 0 = some e) (htr : isTransientError e = false)
    (htl : isFileTooLargeError e = true) :
    UploadManager.uploadFile ow env =
      (UploadResult.file_too_large_error e,
       (if ow then
          StoreOp.listOp :: (if env.existsForDelete then [StoreOp.removeOp] else [])
        else []) ++ [StoreOp.putOp]) := by
  have hdup := tooLarge_imp_not_dup e htl
  show uploadFileGo ow env 3 0 (2 + 1) = _
  simp [uploadFileGo, hput, htr, hdup, htl]

theorem uploadFileGo_no_remove (env : StoreEnv) (maxRetries : Nat) :
    ∀ fuel attempt, StoreOp.removeOp ∉ (uploadFileGo false env maxRetries attempt fuel).2 := by
  intro fuel
  induction fuel with
  | zero => intro attempt; simp [uploadFileGo]
  | succ fuel ih =>
    intro attempt
    by_cases h1 : attempt < maxRetries
    · simp only [uploadFileGo, if_pos h1]
      split
      · simp
      · cases hput : env.putResult attempt with
        | none =>
          simp only [hput]
          split_ifs <;> simp_all [List.mem_append]
        | some err =>
          simp only [hput]
          split_ifs <;> simp_all [List.mem_append, ih (attempt + 1)]
    · simp [uploadFileGo, h1]

theorem uploadFile_no_remove (env : StoreEnv) :
    StoreOp.removeOp ∉ (UploadManager.uploadFile false env).2 :=
  uploadFileGo_no_remove env 3 3 0

theorem processFile_attempts (env : SlideEnv) (videoRf : Nat) (ext : String) :
    (FileProcessor.processFile env videoRf ext).stats.attempts = 1 := by
  simp only [FileProcessor.processFile, VideoCompressor.compress, ImageCompressor.compress,
    CompressionStats.create_no_compression_stats, CompressionStats.init]
  split_ifs <;> rfl

theorem processFile_fileType_ne_video (env : SlideEnv) (videoRf : Nat) (ext : String)
    (h : (strLower ext == ".mp4") = false) :
    (FileProcessor.processFile env videoRf ext).fileType ≠ "video" := by
  have hnot : ¬ ((strLower ext == ".mp4") = true) := by simp [h]
  simp only [FileProcessor.processFile, if_neg hnot]
  split_ifs <;> simp

theorem processSlideWith_download_fail
    (U : SlideEnv → Bool → Nat → Nat → String → CompressionStats → CtrlResult)
    (env : SlideEnv) (ow : Bool) (videoRf maxRf : Nat) (s : SlideData)
    (h : env.downloadOk = false) :
    (processSlideWith U env ow videoRf maxRf s).status.upload_attempts = 0 ∧
    (processSlideWith U env ow videoRf maxRf s).recordedStats = none ∧
    (processSlideWith U env ow videoRf maxRf s).status.download_success = false ∧
    (processSlideWith U env ow videoRf maxRf s).status.upload_success = false ∧
    (processSlideWith U env ow videoRf maxRf s).status.error_message =
      "Download failed: " ++ env.downloadErr := by
  simp [processSlideWith, h]

theorem processSlideWith_ctrl
    (U : SlideEnv → Bool → Nat → Nat → String → CompressionStats → CtrlResult)
    (env : SlideEnv) (ow : Bool) (videoRf maxRf : Nat) (s : SlideData)
    (h : env.downloadOk = true) :
    (processSlideWith U env ow videoRf maxRf s).ctrl =
      some (U env ow videoRf maxRf
        (FileProcessor.processFile env videoRf (getFileExtension s.url)).fileType
        (FileProcessor.processFile env videoRf (getFileExtension s.url)).stats) ∧
    (processSlideWith U env ow videoRf maxRf s).recordedStats =
      some (FileProcessor.processFile env videoRf (getFileExtension s.url)).stats ∧
    (processSlideWith U env ow videoRf maxRf s).status.upload_attempts =
      (FileProcessor.processFile env videoRf (getFileExtension s.url)).stats.attempts := by
  have hnot : ¬ ((!env.downloadOk) = true) := by simp [h]
  simp only [processSlideWith, if_neg hnot]
  refine ⟨?_, ?_, ?_⟩ <;> first
    | trivial
    | (split_ifs <;> rfl)

theorem processSlideWith_upload_outcome
    (U : SlideEnv → Bool → Nat → Nat → String → CompressionStats → CtrlResult)
    (env : SlideEnv) (ow : Bool) (videoRf maxRf : Nat) (s : SlideData)
    (h : env.downloadOk = true) :
    ((U env ow videoRf maxRf
        (FileProcessor.processFile env videoRf (getFileExtension s.url)).fileType
        (FileProcessor.processFile env videoRf (getFileExtension s.url)).stats).url = "" →
      (processSlideWith U env ow videoRf maxRf s).status.upload_success = false ∧
      (processSlideWith U env ow videoRf maxRf s).status.new_url = "") ∧
    ((U env ow videoRf maxRf
        (FileProcessor.processFile env videoRf (getFileExtension s.url)).fileType
        (FileProcessor.processFile env videoRf (getFileExtension s.url)).stats).url ≠ "" →
      (processSlideWith U env ow videoRf maxRf s).status.upload_success = true ∧
      (processSlideWith U env ow videoRf maxRf s).status.new_url =
        (U env ow videoRf maxRf
          (FileProcessor.processFile env videoRf (getFileExtension s.url)).fileType
          (FileProcessor.processFile env videoRf (getFileExtension s.url)).stats).url) := by
  have hnot : ¬ ((!env.downloadOk) = true) := by simp [h]
  simp only [processSlideWith, if_neg hnot]
  set c := U env ow videoRf maxRf
      (FileProcessor.processFile env videoRf (getFileExtension s.url)).fileType
      (FileProcessor.processFile env videoRf (getFileExtension s.url)).stats with hc
  constructor
  · intro hurl
    rw [if_neg (show ¬ (c.url ≠ "") from by simp [hurl])]
    exact ⟨rfl, rfl⟩
  · intro hurl
    rw [if_pos hurl]
    exact ⟨rfl, rfl⟩

theorem processSlideWith_error_folded
    (U : SlideEnv → Bool → Nat → Nat → String → CompressionStats → CtrlResult)
    (env : SlideEnv) (ow : Bool) (videoRf maxRf : Nat) (s : SlideData) :
    (processSlideWith U env ow videoRf maxRf s).status.upload_success = true ∨
    (processSlideWith U env ow videoRf maxRf s).status.error_message ≠ "" := by
  by_cases h : env.downloadOk = true
  · have hnot : ¬ ((!env.downloadOk) = true) := by simp [h]
    simp only [processSlideWith, if_neg hnot]
    split_ifs <;> first
      | (left; rfl)
      | (right; show ("Upload failed" : String) ≠ ""; decide)
  · have h' : env.downloadOk = false := by simpa using h
    right
    have := (processSlideWith_download_fail U env ow videoRf maxRf s h').2.2.2.2
    rw [this]
    intro hcontra
    have hlen := congrArg (fun t => t.data.length) hcontra
    simp [String.data_append] at hlen

theorem retryLoopGo_head_shape (env : SlideEnv) (ow : Bool) (maxRf base : Nat)
    (fuel cur idx : Nat) (h1 : cur < maxRf) (h2 : env.originalFound = true) :
    ∃ it rest, (retryLoopGo env ow maxRf base (fuel + 1) cur idx).2.1 = it :: rest ∧
      it.rf = min (cur + 2) maxRf ∧ it.originalFound = true := by
  by_cases h3 : env.compressOk (min (cur + 2) maxRf) = true
  · by_cases h4 : (UploadManager.uploadFile ow (env.store idx)).1.success = true
    · rw [retryLoopGo_step_uploadSuccess env ow maxRf base fuel cur idx h1 h2 h3 h4]
      exact ⟨_, _, rfl, rfl, rfl⟩
    · have h4' : (UploadManager.uploadFile ow (env.store idx)).1.success = false := by
        simpa using h4
      by_cases h5 : (UploadManager.uploadFile ow (env.store idx)).1.error_type =
          ErrorType.FILE_TOO_LARGE
      · rw [retryLoopGo_step_uploadTooLarge env ow maxRf base fuel cur idx h1 h2 h3 h4' h5]
        exact ⟨_, _, rfl, rfl, rfl⟩
      · rw [retryLoopGo_step_uploadOther env ow maxRf base fuel cur idx h1 h2 h3 h4' h5]
        exact ⟨_, _, rfl, rfl, rfl⟩
  · have h3' : env.compressOk (min (cur + 2) maxRf) = false := by simpa using h3
    rw [retryLoopGo_step_compressFail env ow maxRf base fuel cur idx h1 h2 h3']
    exact ⟨_, _, rfl, rfl, rfl⟩

/-- C6: the recompression loop never hands the compression capability a
quality above the configured ceiling, every retried quality is strictly above
the slide's starting quality, and the quality parameters (hence the recorded
finalQualityParam values) of successive attempts strictly increase, so they
are monotonically non-decreasing. -/
theorem C6_recompression_quality_bounded_and_monotone (env : SlideEnv) (ow : Bool)
    (videoRf maxRf : Nat) (stats : CompressionStats) (uploadIdx : Nat) :
    ((retryWithHigherCompression env ow videoRf maxRf stats uploadIdx).2.1.all
      fun it => decide (it.rf ≤ maxRf)) = true ∧
    ((retryWithHigherCompression env ow videoRf maxRf stats uploadIdx).2.1.all
      fun it => decide (currentRfOf stats videoRf < it.rf)) = true ∧
    List.Chain' (· < ·)
      ((retryWithHigherCompression env ow videoRf maxRf stats uploadIdx).2.1.map
        RetryIter.rf) := by
  unfold retryWithHigherCompression
  by_cases hg : currentRfOf stats videoRf ≥ maxRf
  · simp [hg]
  · rw [if_neg hg]
    obtain ⟨hlen, hmem, hchain⟩ := retryLoopGo_trace_props env ow maxRf stats.attempts
      (maxRf - currentRfOf stats videoRf) (currentRfOf stats videoRf) uploadIdx
    refine ⟨?_, ?_, hchain⟩
    · rw [List.all_eq_true]
      intro it hit
      exact decide_eq_true (hmem it hit).2
    · rw [List.all_eq_true]
      intro it hit
      exact decide_eq_true (hmem it hit).1

/-- C9: the recompression loop is bounded (it runs at most ceiling-minus-start
iterations, with strictly increasing quality), and every non-final iteration
is a continue case: the original file was found, the quality is still below
the ceiling, and either recompression failed or the upload failed with the
TooLarge classification — so the loop exits on upload success, a non-size
upload error, a missing original, or on reaching the ceiling. -/
theorem C9_recompression_loop_bounded_and_exit_conditions (env : SlideEnv) (ow : Bool)
    (videoRf maxRf : Nat) (stats : CompressionStats) (uploadIdx : Nat) :
    (retryWithHigherCompression env ow videoRf maxRf stats uploadIdx).2.1.length ≤
      maxRf - currentRfOf stats videoRf ∧
    List.Chain' (· < ·)
      ((retryWithHigherCompression env ow videoRf maxRf stats uploadIdx).2.1.map
        RetryIter.rf) ∧
    ((retryWithHigherCompression env ow videoRf maxRf stats uploadIdx).2.1.dropLast.all
      (continuesIter maxRf)) = true := by
  unfold retryWithHigherCompression
  by_cases hg : currentRfOf stats videoRf ≥ maxRf
  · simp [hg]
  · rw [if_neg hg]
    obtain ⟨hlen, hmem, hchain⟩ := retryLoopGo_trace_props env ow maxRf stats.attempts
      (maxRf - currentRfOf stats videoRf) (currentRfOf stats videoRf) uploadIdx
    exact ⟨hlen, hchain,
      retryLoopGo_dropLast_continues env ow maxRf stats.attempts
        (maxRf - currentRfOf stats videoRf) (currentRfOf stats videoRf) uploadIdx⟩

/-- C2 counterexample: after the compression failure at quality 30 the
controller does not break and does not return the empty string: it retries
compression at quality 32, uploads, and returns that url. -/
theorem C2_counterexample :
    ((SlideProcessor.processSlide envC2 false 28 35 slideC2).ctrl.map
      fun c => c.trace.map fun it => (it.rf, it.compressOk)) =
        some [(30, false), (32, true)] ∧
    ((SlideProcessor.processSlide envC2 false 28 35 slideC2).ctrl.map
      CtrlResult.url) ≠ some "" := by
  decide

/-- C2 amended: on a compression failure below the ceiling the loop does not
break; it advances the current quality to the value just tried and performs a
further compression attempt at the next quality `min(failed + 2, ceiling)`;
the empty string is returned only if no later attempt succeeds. -/
theorem C2_amended_compression_failure_continues_loop (env : SlideEnv) (ow : Bool)
    (videoRf maxRf : Nat) (stats : CompressionStats) (uploadIdx : Nat)
    (horig : env.originalFound = true)
    (h1 : currentRfOf stats videoRf < maxRf)
    (hc : env.compressOk (min (currentRfOf stats videoRf + 2) maxRf) = false)
    (h2 : min (currentRfOf stats videoRf + 2) maxRf < maxRf) :
    (retryWithHigherCompression env ow videoRf maxRf stats uploadIdx).2.1.get? 0 =
      some ⟨min (currentRfOf stats videoRf + 2) maxRf, true, false, none⟩ ∧
    ((retryWithHigherCompression env ow videoRf maxRf stats uploadIdx).2.1.get? 1).map
      RetryIter.rf =
      some (min (min (currentRfOf stats videoRf + 2) maxRf + 2) maxRf) := by
  have hmin : min (currentRfOf stats videoRf + 2) maxRf =
      currentRfOf stats videoRf + 2 := by omega
  have hfuel : maxRf - currentRfOf stats videoRf =
      (maxRf - currentRfOf stats videoRf - 2 + 1) + 1 := by omega
  unfold retryWithHigherCompression
  rw [if_neg (by omega)]
  rw [hfuel]
  rw [retryLoopGo_step_compressFail env ow maxRf stats.attempts
    (maxRf - currentRfOf stats videoRf - 2 + 1) (currentRfOf stats videoRf) uploadIdx
    h1 horig hc]
  obtain ⟨it2, rest, heq, hrf, horig2⟩ := retryLoopGo_head_shape env ow maxRf stats.attempts
    (maxRf - currentRfOf stats videoRf - 2) (min (currentRfOf stats videoRf + 2) maxRf)
    uploadIdx h2 horig
  constructor
  · rfl
  · simp only [List.get?_cons_succ, heq, List.get?_cons_zero, Option.map_some]
    rw [← hrf]
    rfl

/-- C2 witness: the amended statement at the concrete C2 environment. -/
theorem C2_witness :
    (retryWithHigherCompression envC2 false 28 35 statsW 1).2.1.get? 0 =
      some ⟨min (currentRfOf statsW 28 + 2) 35, true, false, none⟩ ∧
    ((retryWithHigherCompression envC2 false 28 35 statsW 1).2.1.get? 1).map
      RetryIter.rf = some (min (min (currentRfOf statsW 28 + 2) 35 + 2) 35) :=
  C2_amended_compression_failure_continues_loop envC2 false 28 35 statsW 1 rfl
    (by decide) (by decide) (by decide)

/-- C1 counterexample: in the 28/35 scenario with TooLarge failures at 28,
30 and 32 and success at 34, the recorded CompressionOutcome keeps
finalQualityParam 28 and the attempts counter is 1, not 4, so the claimed
conjunction fails. -/
theorem C1_counterexample :
    ¬ ((SlideProcessor.processSlide envC1 false 28 35 slideC1).status.upload_success = true ∧
       ((SlideProcessor.processSlide envC1 false 28 35 slideC1).recordedStats.map
         CompressionStats.final_rf) = some (some 34) ∧
       (SlideProcessor.processSlide envC1 false 28 35 slideC1).status.upload_attempts = 4) := by
  decide

/-- C1 amended: the scenario ends with upload_success = true after four
controller-level upload calls at qualities 28, 30, 32 and 34; the fresh stats
handed to the successful upload carry finalQualityParam 34 and attempts 2
(each retry derives attempts from the original stats object, so it never
exceeds the original value plus one), while the slide status records
upload_attempts 1 and the recorded CompressionOutcome keeps attempts 1 and
finalQualityParam 28. -/
theorem C1_amended_scenario :
    (SlideProcessor.processSlide envC1 false 28 35 slideC1).status.upload_success = true ∧
    (SlideProcessor.processSlide envC1 false 28 35 slideC1).status.new_url =
      "https://cdn.example/Slide_001.mp4" ∧
    ((SlideProcessor.processSlide envC1 false 28 35 slideC1).ctrl.map
      fun c => c.trace.map RetryIter.rf) = some [30, 32, 34] ∧
    ((SlideProcessor.processSlide envC1 false 28 35 slideC1).ctrl.map
      fun c => c.uploads.length) = some 4 ∧
    ((SlideProcessor.processSlide envC1 false 28 35 slideC1).ctrl.map
      CtrlResult.uploadedStats) =
      some (some ⟨120000, 46000, "handbrake", 2, some 34⟩) ∧
    (SlideProcessor.processSlide envC1 false 28 35 slideC1).status.upload_attempts = 1 ∧
    ((SlideProcessor.processSlide envC1 false 28 35 slideC1).recordedStats.map
      fun st => (st.attempts, st.final_rf)) = some (1, some 28) := by
  decide

/-- C3 counterexample: in the SlideProcessor revision a Duplicate failure
with overwrite set is returned as empty immediately: only one upload call is
made and no controller delete is issued, even though a retry upload would
have succeeded, so the terminal status has upload_success = false where the
claim demands true. -/
theorem C3_counterexample :
    (SlideProcessor.processSlide envC3 true 28 35 slideC3).status.upload_success = false ∧
    ((SlideProcessor.processSlide envC3 true 28 35 slideC3).ctrl.map
      fun c => c.uploads.length) = some 1 ∧
    ((SlideProcessor.processSlide envC3 true 28 35 slideC3).ctrl.map
      CtrlResult.directRemoves) = some 0 ∧
    (envC3.store 1).putResult 0 = none := by
  decide

/-- C3 amended: in the MediaProcessor revision a Duplicate failure with the
overwrite flag deletes the remote object and re-attempts the upload exactly
once, and a successful delete-plus-retry yields upload_success = true; the
SlideProcessor revision instead returns empty immediately on that branch. -/
theorem C3_amended_mediaprocessor_overwrite_retry (env : SlideEnv)
    (videoRf maxRf : Nat) (s : SlideData) (e : String)
    (hdl : env.downloadOk = true)
    (hput : (env.store 0).putResult 0 = some e)
    (hdup : isDuplicateError e = true)
    (htr : isTransientError e = false)
    (hrm : env.removeThrows = false)
    (hretry : (env.store 1).putResult 0 = none)
    (hurl : (env.store 1).publicUrl ≠ "") :
    (MediaProcessor.processSingleSlide env true videoRf maxRf s).status.upload_success =
      true ∧
    (MediaProcessor.processSingleSlide env true videoRf maxRf s).status.new_url =
      (env.store 1).publicUrl ∧
    ((MediaProcessor.processSingleSlide env true videoRf maxRf s).ctrl.map
      CtrlResult.directRemoves) = some 1 ∧
    ((MediaProcessor.processSingleSlide env true videoRf maxRf s).ctrl.map
      fun c => c.uploads.length) = some 2 := by
  have hres : (UploadManager.uploadFile true (env.store 0)).1 =
      UploadResult.duplicate_error e :=
    uploadFile_put0_dup true (env.store 0) e hput htr hdup
  have hretryRes : (UploadManager.uploadFile true (env.store 1)).1 =
      UploadResult.success_result (env.store 1).publicUrl := by
    rw [uploadFile_put0_success true (env.store 1) hretry]
  have hu : ∀ ft st, MediaProcessor.uploadWithRetry env true videoRf maxRf ft st =
      ⟨(env.store 1).publicUrl,
       [UploadResult.duplicate_error e,
        UploadResult.success_result (env.store 1).publicUrl], 1, [], none⟩ := by
    intro ft st
    unfold MediaProcessor.uploadWithRetry
    rw [hres]
    simp [UploadResult.duplicate_error, UploadResult.success_result, hrm, hretryRes]
  obtain ⟨hctrl, hrec, hatt⟩ := processSlideWith_ctrl MediaProcessor.uploadWithRetry
    env true videoRf maxRf s hdl
  obtain ⟨hfail, hok⟩ := processSlideWith_upload_outcome MediaProcessor.uploadWithRetry
    env true videoRf maxRf s hdl
  rw [hu] at hok
  obtain ⟨hsucc, hnew⟩ := hok hurl
  simp only [MediaProcessor.processSingleSlide]
  refine ⟨hsucc, ?_, ?_, ?_⟩
  · rw [hnew]
  · simp [hctrl, hu]
  · simp [hctrl, hu]

/-- C3 witness: the amended statement at the concrete C3 environment. -/
theorem C3_witness :
    (MediaProcessor.processSingleSlide envC3 true 28 35 slideC3).status.upload_success =
      true ∧
    (MediaProcessor.processSingleSlide envC3 true 28 35 slideC3).status.new_url =
      (envC3.store 1).publicUrl ∧
    ((MediaProcessor.processSingleSlide envC3 true 28 35 slideC3).ctrl.map
      CtrlResult.directRemoves) = some 1 ∧
    ((MediaProcessor.processSingleSlide envC3 true 28 35 slideC3).ctrl.map
      fun c => c.uploads.length) = some 2 :=
  C3_amended_mediaprocessor_overwrite_retry envC3 28 35 slideC3
    "409 duplicate resource already there" rfl rfl (by decide) (by decide) rfl rfl
    (by decide)

/-- C4 counterexample: a slide whose download fails ends with
upload_attempts = 0, so the claimed bound "both are at least 1, including
slides whose download failed" does not hold. -/
theorem C4_counterexample :
    (SlideProcessor.processSlide envDownloadFail false 28 35 slideC1).status.upload_attempts
      = 0 ∧
    ¬ (1 ≤ (SlideProcessor.processSlide envDownloadFail false 28 35
        slideC1).status.upload_attempts) := by
  decide

/-- C4 amended: for every slide whose download succeeds (so the pipeline
reaches the upload step), the terminal upload_attempts equals the recorded
CompressionOutcome attempts and both are exactly 1; a slide whose download
fails terminates with upload_attempts = 0 and no recorded outcome. -/
theorem C4_amended_attempts_bound (env : SlideEnv) (ow : Bool) (videoRf maxRf : Nat)
    (s : SlideData) :
    (env.downloadOk = true →
      (SlideProcessor.processSlide env ow videoRf maxRf s).status.upload_attempts = 1 ∧
      ((SlideProcessor.processSlide env ow videoRf maxRf s).recordedStats.map
        CompressionStats.attempts) = some 1) ∧
    (env.downloadOk = false →
      (SlideProcessor.processSlide env ow videoRf maxRf s).status.upload_attempts = 0 ∧
      (SlideProcessor.processSlide env ow videoRf maxRf s).recordedStats = none) := by
  constructor
  · intro h
    simp only [SlideProcessor.processSlide]
    obtain ⟨hctrl, hrec, hatt⟩ := processSlideWith_ctrl SlideProcessor.uploadWithRetry
      env ow videoRf maxRf s h
    refine ⟨?_, ?_⟩
    · rw [hatt, processFile_attempts]
    · rw [hrec]
      simp [processFile_attempts]
  · intro h
    simp only [SlideProcessor.processSlide]
    obtain ⟨h1, h2, _⟩ := processSlideWith_download_fail SlideProcessor.uploadWithRetry
      env ow videoRf maxRf s h
    exact ⟨h1, h2⟩

/-- C4 witness: the amended statement at the concrete C1 environment. -/
theorem C4_witness :
    (SlideProcessor.processSlide envC1 false 28 35 slideC1).status.upload_attempts = 1 ∧
    ((SlideProcessor.processSlide envC1 false 28 35 slideC1).recordedStats.map
      CompressionStats.attempts) = some 1 :=
  (C4_amended_attempts_bound envC1 false 28 35 slideC1).1 rfl

/-- C5: submitting N slide records always yields exactly N status records in
the inventory regardless of the completion order the pool produces (any
permutation of the per-slide results), and the per-slide pipeline is total
with every failure folded into the status: a record that is not an upload
success always carries a non-empty error message. -/
theorem C5_pool_inventory_and_totality (envOf : Nat → SlideEnv) (ow : Bool)
    (videoRf maxRf : Nat) (slides : List SlideData) (inv : List SlideStatus)
    (hperm : inv.Perm (MediaProcessor.processSlides envOf ow videoRf maxRf slides).2) :
    inv.length = slides.length ∧
    ∀ st ∈ inv, st.upload_success = true ∨ st.error_message ≠ "" := by
  constructor
  · rw [hperm.length_eq]
    simp [MediaProcessor.processSlides]
  · intro st hst
    have hmem : st ∈ (MediaProcessor.processSlides envOf ow videoRf maxRf slides).2 :=
      hperm.subset hst
    simp only [MediaProcessor.processSlides, List.mem_map] at hmem
    obtain ⟨i, _, heq⟩ := hmem
    rw [← heq]
    exact processSlideWith_error_folded MediaProcessor.uploadWithRetry (envOf i) ow
      videoRf maxRf (slides.getD i ⟨"", ""⟩)

/-- C5 witness: the pool statement at a concrete two-slide input. -/
theorem C5_witness :
    (MediaProcessor.processSlides envOfW false 28 35 slidesW).2.length =
      slidesW.length :=
  (C5_pool_inventory_and_totality envOfW false 28 35 slidesW
    (MediaProcessor.processSlides envOfW false 28 35 slidesW).2 (List.Perm.refl _)).1

/-- C7: a TooLarge failure for a non-video asset is terminal: the controller
makes exactly one upload call, the upload primitive issues exactly one put,
the recompression loop is never entered, and the status ends with
upload_success = false. -/
theorem C7_nonvideo_too_large_terminal (env : SlideEnv) (ow : Bool)
    (videoRf maxRf : Nat) (s : SlideData) (e : String)
    (hdl : env.downloadOk = true)
    (hext : (strLower (getFileExtension s.url) == ".mp4") = false)
    (hput : (env.store 0).putResult 0 = some e)
    (htl : isFileTooLargeError e = true)
    (htr : isTransientError e = false) :
    (SlideProcessor.processSlide env ow videoRf maxRf s).status.upload_success = false ∧
    ((SlideProcessor.processSlide env ow videoRf maxRf s).ctrl.map
      fun c => c.uploads.length) = some 1 ∧
    ((SlideProcessor.processSlide env ow videoRf maxRf s).ctrl.map
      CtrlResult.trace) = some [] ∧
    countPut (UploadManager.uploadFile ow (env.store 0)).2 = 1 := by
  have hres : (UploadManager.uploadFile ow (env.store 0)).1 =
      UploadResult.file_too_large_error e := by
    rw [uploadFile_put0_tooLarge ow (env.store 0) e hput htr htl]
  have hft := processFile_fileType_ne_video env videoRf (getFileExtension s.url) hext
  have hftb : ((FileProcessor.processFile env videoRf
      (getFileExtension s.url)).fileType == "video") = false := by
    simpa using hft
  have hu : SlideProcessor.uploadWithRetry env ow videoRf maxRf
      (FileProcessor.processFile env videoRf (getFileExtension s.url)).fileType
      (FileProcessor.processFile env videoRf (getFileExtension s.url)).stats =
      ⟨"", [UploadResult.file_too_large_error e], 0, [], none⟩ := by
    unfold SlideProcessor.uploadWithRetry
    rw [hres]
    simp [UploadResult.file_too_large_error, hftb]
  obtain ⟨hctrl, hrec, hatt⟩ := processSlideWith_ctrl SlideProcessor.uploadWithRetry
    env ow videoRf maxRf s hdl
  obtain ⟨hfail, hok⟩ := processSlideWith_upload_outcome SlideProcessor.uploadWithRetry
    env ow videoRf maxRf s hdl
  rw [hu] at hfail
  obtain ⟨hsucc, hnew⟩ := hfail rfl
  simp only [SlideProcessor.processSlide]
  refine ⟨hsucc, ?_, ?_, ?_⟩
  · simp [hctrl, hu]
  · simp [hctrl, hu]
  · rw [uploadFile_put0_tooLarge ow (env.store 0) e hput htr htl]
    simp only [countPut]
    split_ifs <;> rfl

/-- C7 witness: the statement at the concrete image-slide environment. -/
theorem C7_witness :
    (SlideProcessor.processSlide envC7 false 28 35 slideC7).status.upload_success = false ∧
    ((SlideProcessor.processSlide envC7 false 28 35 slideC7).ctrl.map
      fun c => c.uploads.length) = some 1 ∧
    ((SlideProcessor.processSlide envC7 false 28 35 slideC7).ctrl.map
      CtrlResult.trace) = some [] ∧
    countPut (UploadManager.uploadFile false (envC7.store 0)).2 = 1 :=
  C7_nonvideo_too_large_terminal envC7 false 28 35 slideC7 "413 payload too large"
    rfl (by decide) rfl (by decide) (by decide)

/-- C8: a Duplicate failure with overwrite = false yields a terminal status
with upload_success = false and an empty new_url, the controller makes a
single upload call and issues no direct delete, and the upload primitive
never issues a remove to the store when the overwrite flag is off. -/
theorem C8_duplicate_no_overwrite_no_delete (env : SlideEnv) (videoRf maxRf : Nat)
    (s : SlideData) (e : String)
    (hdl : env.downloadOk = true)
    (hput : (env.store 0).putResult 0 = some e)
    (hdup : isDuplicateError e = true)
    (htr : isTransientError e = false) :
    (SlideProcessor.processSlide env false videoRf maxRf s).status.upload_success =
      false ∧
    (SlideProcessor.processSlide env false videoRf maxRf s).status.new_url = "" ∧
    ((SlideProcessor.processSlide env false videoRf maxRf s).ctrl.map
      CtrlResult.directRemoves) = some 0 ∧
    ((SlideProcessor.processSlide env false videoRf maxRf s).ctrl.map
      fun c => c.uploads.length) = some 1 ∧
    StoreOp.removeOp ∉ (UploadManager.uploadFile false (env.store 0)).2 := by
  have hres : (UploadManager.uploadFile false (env.store 0)).1 =
      UploadResult.duplicate_error e :=
    uploadFile_put0_dup false (env.store 0) e hput htr hdup
  have hu : SlideProcessor.uploadWithRetry env false videoRf maxRf
      (FileProcessor.processFile env videoRf (getFileExtension s.url)).fileType
      (FileProcessor.processFile env videoRf (getFileExtension s.url)).stats =
      ⟨"", [UploadResult.duplicate_error e], 0, [], none⟩ := by
    unfold SlideProcessor.uploadWithRetry
    rw [hres]
    simp [UploadResult.duplicate_error]
  obtain ⟨hctrl, hrec, hatt⟩ := processSlideWith_ctrl SlideProcessor.uploadWithRetry
    env false videoRf maxRf s hdl
  obtain ⟨hfail, hok⟩ := processSlideWith_upload_outcome SlideProcessor.uploadWithRetry
    env false videoRf maxRf s hdl
  rw [hu] at hfail
  obtain ⟨hsucc, hnew⟩ := hfail rfl
  simp only [SlideProcessor.processSlide]
  refine ⟨hsucc, hnew, ?_, ?_, uploadFile_no_remove (env.store 0)⟩
  · simp [hctrl, hu]
  · simp [hctrl, hu]

/-- C8 witness: the statement at the concrete duplicate environment. -/
theorem C8_witness :
    (SlideProcessor.processSlide envC3 false 28 35 slideC3).status.upload_success =
      false ∧
    (SlideProcessor.processSlide envC3 false 28 35 slideC3).status.new_url = "" ∧
    ((SlideProcessor.processSlide envC3 false 28 35 slideC3).ctrl.map
      CtrlResult.directRemoves) = some 0 ∧
    ((SlideProcessor.processSlide envC3 false 28 35 slideC3).ctrl.map
      fun c => c.uploads.length) = some 1 ∧
    StoreOp.removeOp ∉ (UploadManager.uploadFile false (envC3.store 0)).2 :=
  C8_duplicate_no_overwrite_no_delete envC3 28 35 slideC3
    "409 duplicate resource already there" rfl rfl (by decide) (by decide)

/-- C10: the upload error classifiers are mutually exclusive: an error whose
lowercased text contains duplicate or 409 is never size-classified, no error
is classified as both duplicate and too-large, and the classification chain
assigns a too-large error the FILE_TOO_LARGE kind and a duplicate error the
DUPLICATE kind — exactly one kind each. -/
theorem C10_classifiers_mutually_exclusive (e : String) :
    ((strContainsSub (strLower e) "duplicate" || strContainsSub (strLower e) "409") &&
      isFileTooLargeError e) = false ∧
    (isDuplicateError e && isFileTooLargeError e) = false ∧
    (isFileTooLargeError e = true → classifyFailureKind e = ErrorType.FILE_TOO_LARGE) ∧
    (isDuplicateError e = true → classifyFailureKind e = ErrorType.DUPLICATE) := by
  refine ⟨?_, ?_, ?_, ?_⟩
  · by_cases h : (strContainsSub (strLower e) "duplicate" ||
        strContainsSub (strLower e) "409") = true
    · have hfl : isFileTooLargeError e = false := by
        unfold isFileTooLargeError
        rw [if_pos h]
      rw [hfl, Bool.and_false]
    · have h' : (strContainsSub (strLower e) "duplicate" ||
          strContainsSub (strLower e) "409") = false := by simpa using h
      rw [h', Bool.false_and]
  · by_cases hd : isDuplicateError e = true
    · have h1 : strContainsSub (strLower e) "duplicate" = true := by
        have hd' := hd
        unfold isDuplicateError at hd'
        rw [Bool.and_eq_true] at hd'
        exact hd'.1
      have hfl : isFileTooLargeError e = false := by
        unfold isFileTooLargeError
        rw [if_pos (by rw [h1, Bool.true_or])]
      rw [hfl, Bool.and_false]
    · have hd' : isDuplicateError e = false := by simpa using hd
      rw [hd', Bool.false_and]
  · intro h
    unfold classifyFailureKind
    rw [if_neg (by rw [tooLarge_imp_not_dup e h]; simp), if_pos h]
  · intro h
    unfold classifyFailureKind
    rw [if_pos h]

/-- C10 witness: the classification chain at a concrete 413 error message. -/
theorem C10_witness :
    classifyFailureKind "413 payload too large" = ErrorType.FILE_TOO_LARGE :=
  (C10_classifiers_mutually_exclusive "413 payload too large").2.2.1 (by decide)

end ReadyOrNot

